import Mathlib

/-!
Shallow embedding of the performance regression detection engine of the
lean-effects repository (scripts/check-performance-regression.py,
scripts/performance-comparison.py, scripts/performance-gate.py,
scripts/performance-analysis.py), together with theorems checking the
natural-language specification against it.

Modelling conventions:
* JSON values are the inductive `Json`; Python dictionaries parsed from JSON
  are association lists with distinct keys, looked up with `pyGetD`.
* Python numbers (int/float) are modelled as rationals `ℚ`; Python booleans
  participate in arithmetic as 1/0 via `asNum`.
* Code that can raise a Python exception is embedded in `Except String`;
  an `Except.error` marks exactly the places the Python code raises
  (AttributeError on `x.get` for non-dicts, TypeError on arithmetic or
  comparison with non-numbers, ZeroDivisionError on division by zero).
  Divisions that the source guards syntactically (`if xs else 0.0`,
  `if baseline_time > 0`, `max(total, 1)`, a preceding emptiness return)
  carry the same guard here; the one unguarded division in the sources
  (the baseline comparison of performance-analysis.py) goes through the
  checked division `pyDiv`.
* Recommendation / reason strings are modelled as tagged values carrying
  exactly the numbers the corresponding f-string interpolates.
-/

namespace PerfEngine

/-- A JSON value as produced by Python's `json.load`. -/
inductive Json where
  | null : Json
  | bool (b : Bool) : Json
  | num (q : ℚ) : Json
  | str (s : String) : Json
  | arr (elems : List Json) : Json
  | obj (fields : List (String × Json)) : Json

/-- `d.get(k, default)` on a parsed JSON dictionary. -/
def pyGetD : List (String × Json) → String → Json → Json
  | [], _, default => default
  | (k, v) :: fs, key, default => if k = key then v else pyGetD fs key default

/-- Python truthiness of a JSON value (`if r.get("success", False)`). -/
def pyTruthy : Json → Bool
  | Json.null => false
  | Json.bool b => b
  | Json.num q => q != 0
  | Json.str s => s != ""
  | Json.arr xs => !xs.isEmpty
  | Json.obj fs => !fs.isEmpty

/-- Using a JSON value as a Python number: ints/floats are numbers, bools
coerce to 1/0, anything else raises a TypeError. -/
def asNum : Json → Except String ℚ
  | Json.num q => Except.ok q
  | Json.bool b => Except.ok (if b then 1 else 0)
  | _ => Except.error "TypeError"

/-- Using a JSON value as a Python dict (`x.get` raises AttributeError on
non-dicts). -/
def asObj : Json → Except String (List (String × Json))
  | Json.obj fs => Except.ok fs
  | _ => Except.error "AttributeError"

/-- Python division: raises ZeroDivisionError on a zero denominator. -/
def pyDiv (a b : ℚ) : Except String ℚ :=
  if b = 0 then Except.error "ZeroDivisionError" else Except.ok (a / b)

/-- The five-field metrics tuple returned by `extract_metrics`.  In the
summary (dict) branch the Python code passes four of the fields through
verbatim without a type check, so those fields stay `Json` here; the failure
rate is always computed as a number. -/
structure Metrics where
  avgTime : Json
  avgMem : Json
  failureRate : ℚ
  succCount : Json
  totalCount : Json

/-- The two comprehensions `[r for r in data if r.get("success", False)]`:
every element of the list is used as a dict, so a non-dict element raises
AttributeError (at the first offender). -/
def collectObjs : List Json → Except String (List (List (String × Json)))
  | [] => Except.ok []
  | Json.obj fs :: xs =>
    match collectObjs xs with
    | Except.error e => Except.error e
    | Except.ok ds => Except.ok (fs :: ds)
  | _ :: _ => Except.error "AttributeError"

/-- `[r.get("metrics", {}).get(key, 0) for r in rs]` followed by
`statistics.mean`: the `metrics` field must be a dict (or missing), and the
extracted values must be numbers. -/
def collectField (key : String) : List (List (String × Json)) → Except String (List ℚ)
  | [] => Except.ok []
  | d :: ds =>
    match pyGetD d "metrics" (Json.obj []) with
    | Json.obj ms =>
      match asNum (pyGetD ms key (Json.num 0)) with
      | Except.error e => Except.error e
      | Except.ok q =>
        match collectField key ds with
        | Except.error e => Except.error e
        | Except.ok qs => Except.ok (q :: qs)
    | _ => Except.error "AttributeError"

/-- The `isinstance(data, list)` branch of
`PerformanceRegressionDetector.extract_metrics` (identical in
`PerformanceComparator.extract_metrics`). -/
def extract_list (xs : List Json) : Except String Metrics :=
  match collectObjs xs with
  | Except.error e => Except.error e
  | Except.ok ds =>
    let succs := ds.filter fun d => pyTruthy (pyGetD d "success" (Json.bool false))
    let fails := ds.filter fun d => !pyTruthy (pyGetD d "success" (Json.bool false))
    if succs.isEmpty then
      Except.ok ⟨Json.num 0, Json.num 0, 1, Json.num 0, Json.num (xs.length : ℚ)⟩
    else
      match collectField "executionTime" succs with
      | Except.error e => Except.error e
      | Except.ok times =>
        match collectField "memoryUsage" succs with
        | Except.error e => Except.error e
        | Except.ok mems =>
          let avgT : ℚ := if times.isEmpty then 0 else times.sum / (times.length : ℚ)
          let avgM : ℚ :=
            if mems.isEmpty then 0 else (mems.sum / (mems.length : ℚ)) / 1048576
          let rate : ℚ :=
            if xs.isEmpty then 0 else (fails.length : ℚ) / (xs.length : ℚ)
          Except.ok ⟨Json.num avgT, Json.num avgM, rate,
            Json.num (succs.length : ℚ), Json.num (xs.length : ℚ)⟩

/-- The `isinstance(data, dict)` branch of `extract_metrics`: the four
pass-through fields are returned verbatim; the failure rate is
`failed_benchmarks / max(total_benchmarks or 1, 1)`, which raises a
TypeError if either count field is non-numeric. -/
def extract_dict (fs : List (String × Json)) : Except String Metrics :=
  match asNum (pyGetD fs "failed_benchmarks" (Json.num 0)) with
  | Except.error e => Except.error e
  | Except.ok fq =>
    match asNum (pyGetD fs "total_benchmarks" (Json.num 1)) with
    | Except.error e => Except.error e
    | Except.ok tq =>
      Except.ok ⟨pyGetD fs "avg_execution_time" (Json.num 0),
        pyGetD fs "memory_usage" (Json.num 0),
        fq / max tq 1,
        pyGetD fs "successful_benchmarks" (Json.num 0),
        pyGetD fs "total_benchmarks" (Json.num 0)⟩

/-- `extract_metrics` of check-performance-regression.py lines 76-120
(duplicated verbatim in performance-comparison.py lines 77-121). -/
def extract_metrics : Json → Except String Metrics
  | Json.arr xs => extract_list xs
  | Json.obj fs => extract_dict fs
  | _ => Except.ok ⟨Json.num 0, Json.num 0, 0, Json.num 0, Json.num 0⟩

/-- `RegressionThresholds` dataclass. -/
structure RegressionThresholds where
  execution_time_percent : ℚ
  memory_usage_percent : ℚ
  failure_rate_increase : ℚ
  min_benchmarks : ℤ
deriving DecidableEq

/-- The dataclass defaults (10.0, 15.0, 5.0, 5). -/
def defaultThresholds : RegressionThresholds := ⟨10, 15, 5, 5⟩

/-- A recommendation string of `detect_regression`, abstracted as a tag
plus the numbers its f-string interpolates. -/
inductive Recommendation where
  | insufficientBenchmarks (current minB : ℚ)
  | execTimeIncrease (changePct thresholdPct : ℚ)
  | memoryIncrease (changePct thresholdPct : ℚ)
  | failureRateIncrease (change thresholdPct : ℚ)
  | noRegression
deriving DecidableEq

/-- `RegressionResult` dataclass. -/
structure RegressionResult where
  has_regression : Bool
  execution_time_regression : Bool
  memory_regression : Bool
  failure_rate_regression : Bool
  execution_time_change : ℚ
  memory_change : ℚ
  failure_rate_change : ℚ
  recommendations : List Recommendation
deriving DecidableEq

/-- Lines 174-217 of check-performance-regression.py: per-metric
classification from the computed changes, and the recommendation list built
in the fixed order time, memory, failure rate, then the no-regression
message when nothing triggered. -/
def classify (execChange memChange rateChange : ℚ)
    (t : RegressionThresholds) : RegressionResult :=
  let timeReg : Bool := execChange > t.execution_time_percent
  let memReg : Bool := memChange > t.memory_usage_percent
  let failReg : Bool := rateChange > t.failure_rate_increase / 100
  let hasReg : Bool := timeReg || memReg || failReg
  { has_regression := hasReg
    execution_time_regression := timeReg
    memory_regression := memReg
    failure_rate_regression := failReg
    execution_time_change := execChange
    memory_change := memChange
    failure_rate_change := rateChange
    recommendations :=
      (if timeReg then [Recommendation.execTimeIncrease execChange t.execution_time_percent]
        else []) ++
      (if memReg then [Recommendation.memoryIncrease memChange t.memory_usage_percent]
        else []) ++
      (if failReg then [Recommendation.failureRateIncrease rateChange t.failure_rate_increase]
        else []) ++
      (if hasReg then [] else [Recommendation.noRegression]) }

/-- A metrics tuple whose five fields are numbers (the form every
comparison inside `detect_regression` requires). -/
structure NMetrics where
  time : ℚ
  mem : ℚ
  rate : ℚ
  succ : ℚ
  total : ℚ
deriving DecidableEq

/-- The short-circuit result of lines 145-157: insufficient successful
benchmarks. -/
def insufficientResult (currentSucc minB : ℚ) : RegressionResult :=
  { has_regression := true
    execution_time_regression := false
    memory_regression := false
    failure_rate_regression := false
    execution_time_change := 0
    memory_change := 0
    failure_rate_change := 0
    recommendations := [Recommendation.insufficientBenchmarks currentSucc minB] }

/-- `detect_regression` (lines 122-217) after metric extraction, on numeric
metric tuples: the insufficient-data check, the guarded relative-change
computations, and the classification.  The divisions go through `pyDiv` so
that a returned `Except.ok` witnesses that no division by zero happened. -/
def detect_regression (b c : NMetrics) (t : RegressionThresholds) :
    Except String RegressionResult :=
  if c.succ < (t.min_benchmarks : ℚ) then
    Except.ok (insufficientResult c.succ (t.min_benchmarks : ℚ))
  else
    match (if b.time > 0 then (pyDiv (c.time - b.time) b.time).map (· * 100)
      else Except.ok 0) with
    | Except.error e => Except.error e
    | Except.ok execChange =>
      match (if b.mem > 0 then (pyDiv (c.mem - b.mem) b.mem).map (· * 100)
        else Except.ok 0) with
      | Except.error e => Except.error e
      | Except.ok memChange =>
        Except.ok (classify execChange memChange (c.rate - b.rate) t)

/-- `detect_regression` on raw JSON data: extraction of both inputs, then
numeric coercion of exactly the fields the Python code touches, in the
order it touches them (the current time/memory fields are only read when
the corresponding baseline value is positive). -/
def detect_regression_data (bd cd : Json) (t : RegressionThresholds) :
    Except String RegressionResult :=
  match extract_metrics bd with
  | Except.error e => Except.error e
  | Except.ok bm =>
    match extract_metrics cd with
    | Except.error e => Except.error e
    | Except.ok cm =>
      match asNum cm.succCount with
      | Except.error e => Except.error e
      | Except.ok curSucc =>
        if curSucc < (t.min_benchmarks : ℚ) then
          Except.ok (insufficientResult curSucc (t.min_benchmarks : ℚ))
        else
          match asNum bm.avgTime with
          | Except.error e => Except.error e
          | Except.ok bTime =>
            match (if bTime > 0 then
                match asNum cm.avgTime with
                | Except.error e => Except.error e
                | Except.ok cTime => (pyDiv (cTime - bTime) bTime).map (· * 100)
              else Except.ok 0) with
            | Except.error e => Except.error e
            | Except.ok execChange =>
              match asNum bm.avgMem with
              | Except.error e => Except.error e
              | Except.ok bMem =>
                match (if bMem > 0 then
                    match asNum cm.avgMem with
                    | Except.error e => Except.error e
                    | Except.ok cMem => (pyDiv (cMem - bMem) bMem).map (· * 100)
                  else Except.ok 0) with
                | Except.error e => Except.error e
                | Except.ok memChange =>
                  Except.ok (classify execChange memChange
                    (cm.failureRate - bm.failureRate) t)

/-- `print_comparison` (lines 219-259): presentation only, but its `:.2f`
format specifiers force the four average fields to be numeric, which is the
first place main can raise on ill-typed summary fields. -/
def print_comparison_check (bm cm : Metrics) : Except String Unit :=
  match asNum bm.avgTime with
  | Except.error e => Except.error e
  | Except.ok _ =>
    match asNum cm.avgTime with
    | Except.error e => Except.error e
    | Except.ok _ =>
      match asNum bm.avgMem with
      | Except.error e => Except.error e
      | Except.ok _ =>
        match asNum cm.avgMem with
        | Except.error e => Except.error e
        | Except.ok _ => Except.ok ()

/-- Outcome of one run of `main` in check-performance-regression.py:
`loadFailure` is the `sys.exit(1)` after "Could not load performance data",
`rejected`/`accepted` are the exit(1)/exit(0) after regression analysis,
`crashed` is an uncaught Python exception. -/
inductive MainOutcome where
  | loadFailure
  | rejected (r : RegressionResult)
  | accepted (r : RegressionResult)
  | crashed (e : String)
deriving DecidableEq

/-- `main` of check-performance-regression.py (lines 262-339): a missing or
unreadable file is modelled as `none`.  `load_baseline` returns `None` when
the baseline file is absent and `load_current` returns `None` when the
current file is absent; main exits 1 if either is `None` (lines 310-312),
otherwise prints the comparison and runs the detection. -/
def run_main (baseline_data current_data : Option Json)
    (t : RegressionThresholds) : MainOutcome :=
  match baseline_data, current_data with
  | some bd, some cd =>
    (match (match extract_metrics bd with
      | Except.error e => Except.error e
      | Except.ok bm =>
        match extract_metrics cd with
        | Except.error e => Except.error e
        | Except.ok cm =>
          match print_comparison_check bm cm with
          | Except.error e => Except.error e
          | Except.ok _ => detect_regression_data bd cd t) with
    | Except.error e => MainOutcome.crashed e
    | Except.ok r =>
      if r.has_regression then MainOutcome.rejected r else MainOutcome.accepted r)
  | _, _ => MainOutcome.loadFailure

/-- `PerformanceGate` dataclass of performance-gate.py. -/
structure PerformanceGate where
  max_execution_time_ms : ℚ
  max_memory_usage_mb : ℚ
  max_failure_rate : ℚ
  regression_threshold_percent : ℚ
deriving DecidableEq

/-- The dataclass defaults (1000.0, 100.0, 0.0, 10.0). -/
def defaultGate : PerformanceGate := ⟨1000, 100, 0, 10⟩

/-- One `❌ FAIL` line printed by `check_gate`, abstracted as a tag plus the
numbers its f-string interpolates (only the failure-rate message embeds
numbers). -/
inductive GateReason where
  | execTime
  | memory
  | failureRate (rate maxRate : ℚ)
  | regression
deriving DecidableEq

/-- `PerformanceGateChecker.check_gate` (performance-gate.py lines 46-87):
returns the pass/fail boolean together with the FAIL reasons printed on the
way.  The source returns `False` at the first failing check, so at most one
reason is ever emitted.  The initial status printout applies `:.2f` to the
execution-time and memory fields, forcing them numeric up front; the count
fields are only coerced when their check is reached. -/
def check_gate (g : PerformanceGate) (summary : Json) :
    Except String (Bool × List GateReason) :=
  match asObj summary with
  | Except.error e => Except.error e
  | Except.ok fs =>
    match asNum (pyGetD fs "avg_execution_time" (Json.num 0)) with
    | Except.error e => Except.error e
    | Except.ok avg =>
      match asNum (pyGetD fs "memory_usage" (Json.num 0)) with
      | Except.error e => Except.error e
      | Except.ok mem =>
        if avg > g.max_execution_time_ms then
          Except.ok (false, [GateReason.execTime])
        else if mem > g.max_memory_usage_mb then
          Except.ok (false, [GateReason.memory])
        else
          match asNum (pyGetD fs "total_benchmarks" (Json.num 0)) with
          | Except.error e => Except.error e
          | Except.ok tot =>
            if tot > 0 then
              match asNum (pyGetD fs "failed_benchmarks" (Json.num 0)) with
              | Except.error e => Except.error e
              | Except.ok failed =>
                if failed / tot > g.max_failure_rate then
                  Except.ok (false, [GateReason.failureRate (failed / tot) g.max_failure_rate])
                else if pyTruthy (pyGetD fs "regression_detected" (Json.bool false)) then
                  Except.ok (false, [GateReason.regression])
                else Except.ok (true, [])
            else if pyTruthy (pyGetD fs "regression_detected" (Json.bool false)) then
              Except.ok (false, [GateReason.regression])
            else Except.ok (true, [])

/-- A summary object with the five fields `check_gate` reads, all
well-typed. -/
def mkSummary (avg mem failed tot : ℚ) (reg : Bool) : Json :=
  Json.obj [("avg_execution_time", Json.num avg), ("memory_usage", Json.num mem),
    ("failed_benchmarks", Json.num failed), ("total_benchmarks", Json.num tot),
    ("regression_detected", Json.bool reg)]

/-- `BenchmarkResult` of performance-analysis.py, restricted to the fields
`analyze_performance` reads. -/
structure BenchmarkResult where
  execution_time : ℚ
  memory_usage : ℚ
  success : Bool
deriving DecidableEq

/-- `PerformanceThresholds` dataclass of performance-analysis.py. -/
structure PerformanceThresholds where
  execution_time_ms : ℚ
  memory_usage_mb : ℚ
  regression_threshold_percent : ℚ
  max_failed_benchmarks : ℕ
deriving DecidableEq

/-- The dataclass defaults (1000.0, 100.0, 10.0, 0). -/
def defaultPerfThresholds : PerformanceThresholds := ⟨1000, 100, 10, 0⟩

/-- A recommendation string of `analyze_performance`, abstracted as a tag
plus the numbers its f-string interpolates. -/
inductive AnalysisNote where
  | noResults
  | allFailed
  | execTimeExceeds (avg threshold : ℚ)
  | memoryExceeds (avg threshold : ℚ)
  | tooManyFailed (n maxAllowed : ℕ)
  | baselineSlowdown (pct : ℚ)
deriving DecidableEq

/-- `PerformanceSummary` dataclass of performance-analysis.py. -/
structure PerformanceSummary where
  status : String
  avg_execution_time : ℚ
  memory_usage : ℚ
  regression_detected : Bool
  failed_benchmarks : ℕ
  total_benchmarks : ℕ
  recommendations : List AnalysisNote
deriving DecidableEq

/-- `successful_results = [r for r in self.results if r.success]`. -/
def successful_results (results : List BenchmarkResult) : List BenchmarkResult :=
  results.filter fun r => r.success

/-- `failed_results = [r for r in self.results if not r.success]`. -/
def failed_results (results : List BenchmarkResult) : List BenchmarkResult :=
  results.filter fun r => !r.success

/-- `avg_execution_time = statistics.mean(r.execution_time for r in
successful_results)` (only evaluated when there is at least one successful
result). -/
def avg_execution_time_of (results : List BenchmarkResult) : ℚ :=
  ((successful_results results).map fun r => r.execution_time).sum /
    ((successful_results results).length : ℚ)

/-- `avg_memory_usage = statistics.mean(r.memory_usage for r in
successful_results) / (1024 * 1024)`. -/
def avg_memory_usage_of (results : List BenchmarkResult) : ℚ :=
  (((successful_results results).map fun r => r.memory_usage).sum /
    ((successful_results results).length : ℚ)) / 1048576

/-- The `# Compare with baseline if available` block of
`analyze_performance` (lines 194-209): skipped when there is no successful
baseline record; otherwise computes the relative change against the
baseline mean.  This division has no zero guard in the source, so a zero
baseline mean raises ZeroDivisionError (modelled by `pyDiv`). -/
def baseline_comparison (avg_execution_time : ℚ)
    (baseline_results : List BenchmarkResult) (t : PerformanceThresholds) :
    Except String (Bool × List AnalysisNote) :=
  if (successful_results baseline_results).isEmpty then Except.ok (false, [])
  else
    let bavg : ℚ :=
      ((successful_results baseline_results).map fun r => r.execution_time).sum /
        ((successful_results baseline_results).length : ℚ)
    match pyDiv (avg_execution_time - bavg) bavg with
    | Except.error e => Except.error e
    | Except.ok x =>
      if x * 100 > t.regression_threshold_percent then
        Except.ok (true, [AnalysisNote.baselineSlowdown (x * 100)])
      else Except.ok (false, [])

/-- `PerformanceAnalyzer.analyze_performance` (performance-analysis.py
lines 132-227).  The two means over successful results are guarded by the
preceding all-failed early return; the only exception this function can
raise is the unguarded baseline division inside `baseline_comparison`. -/
def analyze_performance (results baseline_results : List BenchmarkResult)
    (t : PerformanceThresholds) : Except String PerformanceSummary :=
  if results.isEmpty then
    Except.ok ⟨"ERROR", 0, 0, false, 0, 0, [AnalysisNote.noResults]⟩
  else if (successful_results results).isEmpty then
    Except.ok ⟨"FAILED", 0, 0, true, (failed_results results).length, results.length,
      [AnalysisNote.allFailed]⟩
  else
    match baseline_comparison (avg_execution_time_of results) baseline_results t with
    | Except.error e => Except.error e
    | Except.ok (r4, recs4) =>
      let avgT := avg_execution_time_of results
      let avgM := avg_memory_usage_of results
      let r1 : Bool := avgT > t.execution_time_ms
      let r2 : Bool := avgM > t.memory_usage_mb
      let r3 : Bool := (failed_results results).length > t.max_failed_benchmarks
      let regression := r1 || r2 || r3 || r4
      let recs :=
        (if r1 then [AnalysisNote.execTimeExceeds avgT t.execution_time_ms] else []) ++
        (if r2 then [AnalysisNote.memoryExceeds avgM t.memory_usage_mb] else []) ++
        (if r3 then [AnalysisNote.tooManyFailed (failed_results results).length
          t.max_failed_benchmarks] else []) ++ recs4
      let status := if regression then "REGRESSION"
        else if (failed_results results).length > 0 then "PARTIAL" else "PASS"
      Except.ok ⟨status, avgT, avgM, regression, (failed_results results).length,
        results.length, recs⟩

/-- Modelled from the spec: the status derivation rule of section 6
("`ERROR` if no records at all; `FAILED` if records exist but zero
succeeded; `REGRESSION` if `hasRegression`; `PARTIAL` if some failures but
no regression; `PASS` otherwise"), written from the spec's words for
comparison against `analyze_performance`. -/
def statusSpec (total succCnt failedCnt : ℕ) (hasReg : Bool) : String :=
  if total = 0 then "ERROR"
  else if succCnt = 0 then "FAILED"
  else if hasReg then "REGRESSION"
  else if 0 < failedCnt then "PARTIAL"
  else "PASS"

/-- Well-typedness of a JSON value for `extract_metrics`: exactly the
inputs on which none of the embedded `asNum`/`asObj` coercions fail. -/
def numOk : Json → Bool
  | Json.num _ => true
  | Json.bool _ => true
  | _ => false

/-- `r.get("metrics", {}).get(key, 0)` can be fed to `statistics.mean`:
the `metrics` field is an object (or missing) and the entry at `key` is a
number (or missing). -/
def metricsFieldOK (key : String) (d : List (String × Json)) : Bool :=
  match pyGetD d "metrics" (Json.obj []) with
  | Json.obj ms => numOk (pyGetD ms key (Json.num 0))
  | _ => false

/-- A shape-(a) element that extraction can process without raising: an
object whose `metrics` field (when used) is an object with numeric-or-
missing time and memory entries. -/
def elemWF : Json → Bool
  | Json.obj fs => metricsFieldOK "executionTime" fs && metricsFieldOK "memoryUsage" fs
  | _ => false

/-- Inputs on which `extract_metrics` provably does not raise. -/
def wfJson : Json → Bool
  | Json.arr xs => xs.all elemWF
  | Json.obj fs =>
    numOk (pyGetD fs "failed_benchmarks" (Json.num 0)) &&
      numOk (pyGetD fs "total_benchmarks" (Json.num 1))
  | _ => true

/-- Scalar (non-list, non-dict) JSON values. -/
def isScalar : Json → Bool
  | Json.arr _ => false
  | Json.obj _ => false
  | _ => true

end PerfEngine

namespace PerfEngine

/-! ### Helper lemmas -/

lemma classify_recs_noRegression (e m rc : ℚ) (t : RegressionThresholds) :
    Recommendation.noRegression ∈ (classify e m rc t).recommendations ↔
      (classify e m rc t).has_regression = false := by
  simp only [classify]
  cases hd1 : decide (e > t.execution_time_percent) <;>
    cases hd2 : decide (m > t.memory_usage_percent) <;>
      cases hd3 : decide (rc > t.failure_rate_increase / 100) <;>
        simp [hd1, hd2, hd3]

lemma detect_regression_total (b c : NMetrics) (t : RegressionThresholds) :
    ∃ r, detect_regression b c t = Except.ok r := by
  unfold detect_regression
  by_cases hs : c.succ < (t.min_benchmarks : ℚ)
  · simp [hs]
  · simp only [hs, if_false]
    by_cases hbt : b.time > 0 <;> by_cases hbm : b.mem > 0 <;>
      simp [hbt, hbm, pyDiv, ne_of_gt, Except.map]

lemma detect_regression_ok (b c : NMetrics) (t : RegressionThresholds)
    (h : (t.min_benchmarks : ℚ) ≤ c.succ) :
    detect_regression b c t = Except.ok
      (classify (if b.time > 0 then (c.time - b.time) / b.time * 100 else 0)
        (if b.mem > 0 then (c.mem - b.mem) / b.mem * 100 else 0)
        (c.rate - b.rate) t) := by
  unfold detect_regression
  rw [if_neg (not_lt.mpr h)]
  by_cases hbt : b.time > 0 <;> by_cases hbm : b.mem > 0 <;>
    simp [hbt, hbm, pyDiv, ne_of_gt, Except.map]

lemma asNum_of_numOk {j : Json} (h : numOk j = true) : ∃ q, asNum j = Except.ok q := by
  cases j with
  | num q => exact ⟨q, rfl⟩
  | bool b => exact ⟨if b then 1 else 0, rfl⟩
  | null => simp [numOk] at h
  | str s => simp [numOk] at h
  | arr xs => simp [numOk] at h
  | obj fs => simp [numOk] at h

lemma collectObjs_of_forall {P : List (String × Json) → Prop} :
    ∀ xs : List Json, (∀ x ∈ xs, ∃ fs, x = Json.obj fs ∧ P fs) →
    ∃ ds, collectObjs xs = Except.ok ds ∧ ds.length = xs.length ∧ ∀ d ∈ ds, P d := by
  intro xs
  induction xs with
  | nil => intro _; exact ⟨[], rfl, rfl, by simp⟩
  | cons x xs ih =>
    intro h
    obtain ⟨fs, hx, hP⟩ := h x (List.mem_cons_self x xs)
    obtain ⟨ds, hds, hlen, hall⟩ := ih (fun y hy => h y (List.mem_cons_of_mem x hy))
    subst hx
    refine ⟨fs :: ds, ?_, by simp [hlen], ?_⟩
    · simp [collectObjs, hds]
    · intro d hd
      rcases List.mem_cons.mp hd with h1 | h2
      · subst h1; exact hP
      · exact hall d h2

lemma collectObjs_length : ∀ (xs : List Json) (ds : List (List (String × Json))),
    collectObjs xs = Except.ok ds → ds.length = xs.length := by
  intro xs
  induction xs with
  | nil => intro ds h; simp [collectObjs] at h; subst h; rfl
  | cons x xs ih =>
    intro ds h
    cases x with
    | obj fs =>
      unfold collectObjs at h
      cases hc : collectObjs xs with
      | error e => rw [hc] at h; simp at h
      | ok ds2 =>
        rw [hc] at h
        simp only [Except.ok.injEq] at h
        subst h
        simp [ih ds2 hc]
    | null => simp [collectObjs] at h
    | bool b => simp [collectObjs] at h
    | num q => simp [collectObjs] at h
    | str s => simp [collectObjs] at h
    | arr ys => simp [collectObjs] at h

lemma collectField_ok (key : String) :
    ∀ ds : List (List (String × Json)), (∀ d ∈ ds, metricsFieldOK key d = true) →
    ∃ qs, collectField key ds = Except.ok qs := by
  intro ds
  induction ds with
  | nil => exact fun _ => ⟨[], rfl⟩
  | cons d ds ih =>
    intro h
    have hd := h d (List.mem_cons_self d ds)
    obtain ⟨qs, hqs⟩ := ih (fun y hy => h y (List.mem_cons_of_mem d hy))
    unfold metricsFieldOK at hd
    cases hmm : pyGetD d "metrics" (Json.obj []) with
    | obj ms =>
      rw [hmm] at hd
      obtain ⟨q, hq⟩ := asNum_of_numOk hd
      exact ⟨q :: qs, by simp [collectField, hmm, hq, hqs]⟩
    | null => rw [hmm] at hd; exact absurd hd (by simp)
    | bool b => rw [hmm] at hd; exact absurd hd (by simp)
    | num q => rw [hmm] at hd; exact absurd hd (by simp)
    | str s => rw [hmm] at hd; exact absurd hd (by simp)
    | arr xs => rw [hmm] at hd; exact absurd hd (by simp)

lemma extract_allFailed (xs : List Json)
    (h : ∀ x ∈ xs, ∃ fs, x = Json.obj fs ∧
      pyTruthy (pyGetD fs "success" (Json.bool false)) = false) :
    extract_metrics (Json.arr xs) =
      Except.ok ⟨Json.num 0, Json.num 0, 1, Json.num 0, Json.num (xs.length : ℚ)⟩ := by
  obtain ⟨ds, hds, hlen, hall⟩ := collectObjs_of_forall xs h
  have hfil : ds.filter (fun d => pyTruthy (pyGetD d "success" (Json.bool false))) = [] := by
    apply List.filter_eq_nil_iff.mpr
    intro d hd
    simp [hall d hd]
  show extract_list xs = _
  unfold extract_list
  rw [hds]
  simp [hfil]

end PerfEngine

namespace PerfEngine

/-! ### Claim C1 -/

/-- C1 counterexample: a summary that violates both the execution-time
ceiling (2000ms > 1000ms) and the failure-rate ceiling (0.02 > 0.0) makes
`check_gate` return after reporting only the execution-time reason; the
failure-rate reason, although applicable, is not reported alongside it. -/
theorem claim_C1_counterexample :
    check_gate defaultGate (mkSummary 2000 50 2 100 false) =
      Except.ok (false, [GateReason.execTime]) := by
  simp [check_gate, defaultGate, mkSummary, pyGetD, asObj, asNum, pyTruthy]
  norm_num

/-- C1 (amended): for every well-typed summary and gate configuration,
`check_gate` returns `passed` logically equal to the conjunction of the
four checks, but evaluates them in order (execution time, memory, failure
rate, regression) and returns at the first failure, so at most one failure
reason is ever reported, and the failure-rate reason appears exactly when
the failure-rate check fails and both earlier checks pass. -/
theorem claim_C1_amended (avg mem failed tot : ℚ) (reg : Bool) (g : PerformanceGate) :
    ∃ passed reasons,
      check_gate g (mkSummary avg mem failed tot reg) = Except.ok (passed, reasons) ∧
      (passed = true ↔ (avg ≤ g.max_execution_time_ms ∧ mem ≤ g.max_memory_usage_mb ∧
        (0 < tot → failed / tot ≤ g.max_failure_rate) ∧ reg = false)) ∧
      reasons.length ≤ 1 ∧
      (reasons = [] ↔ passed = true) ∧
      (GateReason.failureRate (failed / tot) g.max_failure_rate ∈ reasons ↔
        (avg ≤ g.max_execution_time_ms ∧ mem ≤ g.max_memory_usage_mb ∧ 0 < tot ∧
          g.max_failure_rate < failed / tot)) := by
  simp only [check_gate, mkSummary, pyGetD, asObj, asNum, pyTruthy, String.reduceEq,
    reduceIte]
  by_cases h1 : g.max_execution_time_ms < avg
  · rw [if_pos h1]
    refine ⟨false, [GateReason.execTime], rfl, ?_, by simp, by simp, ?_⟩
    · simp only [Bool.false_eq_true, false_iff]
      exact fun hcon => absurd hcon.1 (not_le.mpr h1)
    · simp only [List.mem_singleton]
      constructor
      · intro hcon; exact absurd hcon (by simp)
      · intro hcon; exact absurd hcon.1 (not_le.mpr h1)
  · rw [if_neg h1]
    by_cases h2 : g.max_memory_usage_mb < mem
    · rw [if_pos h2]
      refine ⟨false, [GateReason.memory], rfl, ?_, by simp, by simp, ?_⟩
      · simp only [Bool.false_eq_true, false_iff]
        exact fun hcon => absurd hcon.2.1 (not_le.mpr h2)
      · simp only [List.mem_singleton]
        constructor
        · intro hcon; exact absurd hcon (by simp)
        · intro hcon; exact absurd hcon.2.1 (not_le.mpr h2)
    · rw [if_neg h2]
      by_cases h3 : (0:ℚ) < tot
      · rw [if_pos h3]
        by_cases h4 : g.max_failure_rate < failed / tot
        · rw [if_pos h4]
          refine ⟨false, [GateReason.failureRate (failed / tot) g.max_failure_rate],
            rfl, ?_, by simp, by simp, ?_⟩
          · simp only [Bool.false_eq_true, false_iff]
            exact fun hcon => absurd (hcon.2.2.1 h3) (not_le.mpr h4)
          · simp only [List.mem_singleton, eq_self_iff_true, true_iff]
            exact ⟨not_lt.mp h1, not_lt.mp h2, h3, h4⟩
        · rw [if_neg h4]
          cases reg with
          | true =>
            rw [if_pos rfl]
            refine ⟨false, [GateReason.regression], rfl, ?_, by simp, by simp, ?_⟩
            · simp
            · simp only [List.mem_singleton]
              constructor
              · intro hcon; exact absurd hcon (by simp)
              · intro hcon; exact absurd hcon.2.2.2 h4
          | false =>
            rw [if_neg (by simp)]
            refine ⟨true, [], rfl, ?_, by simp, by simp, ?_⟩
            · simp only [true_iff]
              exact ⟨not_lt.mp h1, not_lt.mp h2, fun _ => not_lt.mp h4, trivial⟩
            · simp only [List.not_mem_nil, false_iff]
              exact fun hcon => absurd hcon.2.2.2 h4
      · rw [if_neg h3]
        cases reg with
        | true =>
          rw [if_pos rfl]
          refine ⟨false, [GateReason.regression], rfl, ?_, by simp, by simp, ?_⟩
          · simp
          · simp only [List.mem_singleton]
            constructor
            · intro hcon; exact absurd hcon (by simp)
            · intro hcon; exact absurd hcon.2.2.1 h3
        | false =>
          rw [if_neg (by simp)]
          refine ⟨true, [], rfl, ?_, by simp, by simp, ?_⟩
          · simp only [true_iff]
            exact ⟨not_lt.mp h1, not_lt.mp h2, fun hc => absurd hc h3, trivial⟩
          · simp only [List.not_mem_nil, false_iff]
            exact fun hcon => absurd hcon.2.2.1 h3

/-- C1 witness: the amended statement evaluated at a concrete summary
(avg 500ms, mem 50MB, 2/100 failed, no regression flag) under the default
gate. -/
theorem claim_C1_witness :
    ∃ passed reasons,
      check_gate defaultGate (mkSummary 500 50 2 100 false) = Except.ok (passed, reasons) ∧
      (passed = true ↔ ((500:ℚ) ≤ defaultGate.max_execution_time_ms ∧
        (50:ℚ) ≤ defaultGate.max_memory_usage_mb ∧
        ((0:ℚ) < 100 → (2:ℚ) / 100 ≤ defaultGate.max_failure_rate) ∧ false = false)) ∧
      reasons.length ≤ 1 ∧
      (reasons = [] ↔ passed = true) ∧
      (GateReason.failureRate ((2:ℚ) / 100) defaultGate.max_failure_rate ∈ reasons ↔
        ((500:ℚ) ≤ defaultGate.max_execution_time_ms ∧
          (50:ℚ) ≤ defaultGate.max_memory_usage_mb ∧ (0:ℚ) < 100 ∧
          defaultGate.max_failure_rate < (2:ℚ) / 100)) :=
  claim_C1_amended 500 50 2 100 false defaultGate

/-! ### Claim C2 -/

/-- C2 counterexample: a list containing a scalar element raises an
AttributeError inside `extract_metrics` (Python evaluates `r.get` on every
list element), so extraction is not total on all JSON values. -/
theorem claim_C2_counterexample :
    extract_metrics (Json.arr [Json.num 5]) = Except.error "AttributeError" := rfl

/-- C2 (amended): `extract_metrics` is total on scalars and null, on
summary objects whose `failed_benchmarks` / `total_benchmarks` fields are
numeric or missing, and on arrays all of whose elements are objects whose
`metrics` field (when present) is an object with numeric-or-missing
`executionTime` / `memoryUsage` entries; on those inputs missing fields
degrade to numeric defaults and no exception occurs. -/
theorem claim_C2_amended (j : Json) (h : wfJson j = true) :
    ∃ m, extract_metrics j = Except.ok m := by
  cases j with
  | null => exact ⟨_, rfl⟩
  | bool b => exact ⟨_, rfl⟩
  | num q => exact ⟨_, rfl⟩
  | str s => exact ⟨_, rfl⟩
  | obj fs =>
    simp [wfJson] at h
    obtain ⟨fq, hfq⟩ := asNum_of_numOk h.1
    obtain ⟨tq, htq⟩ := asNum_of_numOk h.2
    exact ⟨⟨pyGetD fs "avg_execution_time" (Json.num 0), pyGetD fs "memory_usage" (Json.num 0),
      fq / max tq 1, pyGetD fs "successful_benchmarks" (Json.num 0),
      pyGetD fs "total_benchmarks" (Json.num 0)⟩,
      by simp [extract_metrics, extract_dict, hfq, htq]⟩
  | arr xs =>
    simp only [wfJson, List.all_eq_true] at h
    have h' : ∀ x ∈ xs, ∃ fs, x = Json.obj fs ∧
        (metricsFieldOK "executionTime" fs = true ∧ metricsFieldOK "memoryUsage" fs = true) := by
      intro x hx
      have hw := h x hx
      cases x with
      | obj fs =>
        refine ⟨fs, rfl, ?_⟩
        simpa [elemWF] using hw
      | null => simp [elemWF] at hw
      | bool b => simp [elemWF] at hw
      | num q => simp [elemWF] at hw
      | str s => simp [elemWF] at hw
      | arr ys => simp [elemWF] at hw
    obtain ⟨ds, hds, hlen, hall⟩ := collectObjs_of_forall xs h'
    show ∃ m, extract_list xs = Except.ok m
    unfold extract_list
    rw [hds]
    by_cases hse : (ds.filter fun d => pyTruthy (pyGetD d "success" (Json.bool false))).isEmpty
    · simp [hse]
    · simp only [hse, Bool.false_eq_true, if_false]
      have hsub : ∀ d ∈ ds.filter (fun d => pyTruthy (pyGetD d "success" (Json.bool false))),
          metricsFieldOK "executionTime" d = true ∧ metricsFieldOK "memoryUsage" d = true :=
        fun d hd => hall d (List.mem_of_mem_filter hd)
      obtain ⟨times, htimes⟩ := collectField_ok "executionTime" _ (fun d hd => (hsub d hd).1)
      obtain ⟨mems, hmems⟩ := collectField_ok "memoryUsage" _ (fun d hd => (hsub d hd).2)
      rw [htimes, hmems]
      exact ⟨_, rfl⟩

/-- C2 witness: the amended totality statement evaluated at a concrete
well-formed array (one successful record with metrics and one failed
record without any). -/
theorem claim_C2_witness :
    wfJson (Json.arr [Json.obj [("success", Json.bool true),
      ("metrics", Json.obj [("executionTime", Json.num 100), ("memoryUsage", Json.num 1048576)])],
      Json.obj [("success", Json.bool false)]]) = true ∧
    ∃ m, extract_metrics (Json.arr [Json.obj [("success", Json.bool true),
      ("metrics", Json.obj [("executionTime", Json.num 100), ("memoryUsage", Json.num 1048576)])],
      Json.obj [("success", Json.bool false)]]) = Except.ok m := by
  refine ⟨by simp [wfJson, elemWF, metricsFieldOK, pyGetD, numOk], claim_C2_amended _ ?_⟩
  simp [wfJson, elemWF, metricsFieldOK, pyGetD, numOk]

end PerfEngine

namespace PerfEngine

/-! ### Claim C3 -/

/-- C3: whenever the current successful count is below `min_benchmarks`,
`detect_regression` returns immediately with `has_regression = true`, all
three per-metric flags false, all three changes 0.0, and exactly one
recommendation naming the shortfall — for every baseline, current metrics
and thresholds, regardless of the metric values. -/
theorem claim_C3 (b c : NMetrics) (t : RegressionThresholds)
    (h : c.succ < (t.min_benchmarks : ℚ)) :
    detect_regression b c t = Except.ok
      { has_regression := true
        execution_time_regression := false
        memory_regression := false
        failure_rate_regression := false
        execution_time_change := 0
        memory_change := 0
        failure_rate_change := 0
        recommendations := [Recommendation.insufficientBenchmarks c.succ
          (t.min_benchmarks : ℚ)] } := by
  simp [detect_regression, insufficientResult, h]

/-- C3 witness: a run with 2 successful benchmarks against the default
minimum of 5 is short-circuited, even though every metric is favourable. -/
theorem claim_C3_witness :
    (2:ℚ) < (defaultThresholds.min_benchmarks : ℚ) ∧
    detect_regression ⟨0,0,0,0,0⟩ ⟨50,10,0,2,3⟩ defaultThresholds = Except.ok
      { has_regression := true
        execution_time_regression := false
        memory_regression := false
        failure_rate_regression := false
        execution_time_change := 0
        memory_change := 0
        failure_rate_change := 0
        recommendations := [Recommendation.insufficientBenchmarks 2
          (defaultThresholds.min_benchmarks : ℚ)] } :=
  ⟨by norm_num [defaultThresholds],
    claim_C3 ⟨0,0,0,0,0⟩ ⟨50,10,0,2,3⟩ defaultThresholds (by norm_num [defaultThresholds])⟩

/-! ### Claim C4 -/

/-- C4 counterexample: a shape-(b) summary with `failed_benchmarks = 5`,
`successful_benchmarks = 10` and `total_benchmarks = 2` extracts to a
metrics tuple with failure rate 5/2 > 1 and successful count 10 > total
count 2, violating both claimed invariants. -/
theorem claim_C4_counterexample :
    extract_metrics (Json.obj [("failed_benchmarks", Json.num 5),
      ("successful_benchmarks", Json.num 10), ("total_benchmarks", Json.num 2)]) =
      Except.ok ⟨Json.num 0, Json.num 0, 5/2, Json.num 10, Json.num 2⟩ ∧
    ¬((5 : ℚ)/2 ≤ 1) ∧ ¬((10 : ℚ) ≤ 2) := by
  refine ⟨?_, by norm_num, by norm_num⟩
  simp [extract_metrics, extract_dict, pyGetD, asNum]

/-- C4 (amended): the invariants `0 ≤ failureRate ≤ 1` and
`successfulCount ≤ totalCount` hold for every metrics tuple produced from a
shape-(a) list and for every scalar input, but not for shape-(b) summary
objects, whose count fields are passed through unchecked. -/
theorem claim_C4_amended :
    (∀ (xs : List Json) (m : Metrics), extract_metrics (Json.arr xs) = Except.ok m →
      0 ≤ m.failureRate ∧ m.failureRate ≤ 1 ∧
      ∃ sc tc : ℕ, m.succCount = Json.num (sc : ℚ) ∧ m.totalCount = Json.num (tc : ℚ) ∧
        sc ≤ tc) ∧
    (∀ j : Json, isScalar j = true →
      extract_metrics j = Except.ok ⟨Json.num 0, Json.num 0, 0, Json.num 0, Json.num 0⟩) := by
  constructor
  · intro xs m h
    change extract_list xs = Except.ok m at h
    unfold extract_list at h
    cases hc : collectObjs xs with
    | error e => rw [hc] at h; simp at h
    | ok ds =>
      rw [hc] at h
      have hlen : ds.length = xs.length := collectObjs_length xs ds hc
      by_cases hse : (ds.filter fun d => pyTruthy (pyGetD d "success" (Json.bool false))).isEmpty
      · simp only [hse, if_true] at h
        simp only [Except.ok.injEq] at h
        subst h
        refine ⟨by norm_num, by norm_num, 0, xs.length, by norm_num, rfl, by omega⟩
      · simp only [hse, Bool.false_eq_true, if_false] at h
        cases ht : collectField "executionTime"
            (ds.filter fun d => pyTruthy (pyGetD d "success" (Json.bool false))) with
        | error e => rw [ht] at h; simp at h
        | ok times =>
          rw [ht] at h
          cases hm : collectField "memoryUsage"
              (ds.filter fun d => pyTruthy (pyGetD d "success" (Json.bool false))) with
          | error e => rw [hm] at h; simp at h
          | ok mems =>
            rw [hm] at h
            simp only [Except.ok.injEq] at h
            subst h
            have hxe : xs.isEmpty = false := by
              rcases xs with _ | ⟨y, ys⟩
              · exfalso
                have : ds = [] := List.length_eq_zero.mp (by simpa using hlen)
                subst this
                simp at hse
              · rfl
            have hxpos : 0 < (xs.length : ℚ) := by
              rcases xs with _ | ⟨y, ys⟩
              · simp at hxe
              · exact_mod_cast Nat.succ_pos ys.length
            refine ⟨?_, ?_, (ds.filter fun d =>
                pyTruthy (pyGetD d "success" (Json.bool false))).length, xs.length,
                rfl, rfl, ?_⟩
            · simp only [hxe, Bool.false_eq_true, if_false]
              positivity
            · simp only [hxe, Bool.false_eq_true, if_false]
              rw [div_le_one hxpos]
              have hle : (ds.filter fun d =>
                  !pyTruthy (pyGetD d "success" (Json.bool false))).length ≤ ds.length :=
                List.length_filter_le _ _
              exact_mod_cast hlen ▸ hle
            · calc (ds.filter fun d =>
                    pyTruthy (pyGetD d "success" (Json.bool false))).length
                  ≤ ds.length := List.length_filter_le _ _
                _ = xs.length := hlen
  · intro j hj
    cases j with
    | null => rfl
    | bool b => rfl
    | num q => rfl
    | str s => rfl
    | arr xs => simp [isScalar] at hj
    | obj fs => simp [isScalar] at hj

/-- C4 witness: the amended invariants evaluated on a concrete one-element
all-failed array and on the null scalar. -/
theorem claim_C4_witness :
    (∀ m : Metrics, extract_metrics (Json.arr [Json.obj [("success", Json.bool false)]]) =
        Except.ok m →
      0 ≤ m.failureRate ∧ m.failureRate ≤ 1 ∧
      ∃ sc tc : ℕ, m.succCount = Json.num (sc : ℚ) ∧ m.totalCount = Json.num (tc : ℚ) ∧
        sc ≤ tc) ∧
    extract_metrics Json.null = Except.ok ⟨Json.num 0, Json.num 0, 0, Json.num 0, Json.num 0⟩ :=
  ⟨fun m hm => claim_C4_amended.1 _ m hm, claim_C4_amended.2 Json.null rfl⟩

end PerfEngine

namespace PerfEngine

/-! ### Claim C5 -/

/-- C5 counterexample: with the baseline file absent and a readable current
file, `main` exits through the load-failure path (exit 1, "Could not load
performance data") instead of skipping the comparison — baseline absence is
fatal in this code, contradicting the claim that the engine does not fail. -/
theorem claim_C5_counterexample :
    run_main none (some (Json.arr [])) defaultThresholds = MainOutcome.loadFailure := rfl

/-- C5 (amended): absence of either input file is fatal: `main` exits 1
with a load-failure outcome exactly when the baseline or the current file
is missing, and that outcome is distinct from the regression-rejection and
crash outcomes.  The baseline comparison is never skipped in favour of
gate-only checks. -/
theorem claim_C5_amended (b c : Option Json) (t : RegressionThresholds) :
    (run_main b c t = MainOutcome.loadFailure ↔ b = none ∨ c = none) ∧
    (∀ r, MainOutcome.loadFailure ≠ MainOutcome.rejected r) ∧
    (∀ e, MainOutcome.loadFailure ≠ MainOutcome.crashed e) := by
  refine ⟨?_, fun r h => MainOutcome.noConfusion h, fun e h => MainOutcome.noConfusion h⟩
  cases b with
  | none => simp [run_main]
  | some bd =>
    cases c with
    | none => simp [run_main]
    | some cd =>
      simp only [run_main]
      constructor
      · intro h
        exfalso
        split at h
        · exact MainOutcome.noConfusion h
        · split at h
          · exact MainOutcome.noConfusion h
          · exact MainOutcome.noConfusion h
      · intro h
        rcases h with h | h <;> simp at h

/-- C5 witness: the amended statement evaluated at a missing baseline and a
present (empty-array) current file. -/
theorem claim_C5_witness :
    (run_main none (some (Json.arr [])) defaultThresholds = MainOutcome.loadFailure ↔
      (none : Option Json) = none ∨ (some (Json.arr []) : Option Json) = none) ∧
    (∀ r, MainOutcome.loadFailure ≠ MainOutcome.rejected r) ∧
    (∀ e, MainOutcome.loadFailure ≠ MainOutcome.crashed e) :=
  claim_C5_amended none (some (Json.arr [])) defaultThresholds

/-! ### Claim C6 -/

/-- C6: `detect_regression` never raises (in particular never divides by a
zero baseline), and — outside the insufficient-data short-circuit, under
the intended nonnegative thresholds — a zero baseline execution time gives
`execution_time_change = 0` (not infinite) and no time-regression flag, and
likewise for memory. -/
theorem claim_C6 (b c : NMetrics) (t : RegressionThresholds) :
    (∃ r, detect_regression b c t = Except.ok r) ∧
    ((t.min_benchmarks : ℚ) ≤ c.succ → b.time = 0 → 0 ≤ t.execution_time_percent →
      ∃ r, detect_regression b c t = Except.ok r ∧
        r.execution_time_change = 0 ∧ r.execution_time_regression = false) ∧
    ((t.min_benchmarks : ℚ) ≤ c.succ → b.mem = 0 → 0 ≤ t.memory_usage_percent →
      ∃ r, detect_regression b c t = Except.ok r ∧
        r.memory_change = 0 ∧ r.memory_regression = false) := by
  refine ⟨detect_regression_total b c t, ?_, ?_⟩
  · intro hs hbt hthr
    refine ⟨_, detect_regression_ok b c t hs, ?_, ?_⟩
    · simp [classify, hbt]
    · simp [classify, hbt]
      linarith
  · intro hs hbm hthr
    refine ⟨_, detect_regression_ok b c t hs, ?_, ?_⟩
    · simp [classify, hbm]
    · simp [classify, hbm]
      linarith

/-- C6 witness: zero baseline (time and memory) against a fast-looking
current run of 6 successful benchmarks under default thresholds: the
changes are 0 and no time/memory flag is set, exactly as the zero-baseline
guard dictates. -/
theorem claim_C6_witness :
    (defaultThresholds.min_benchmarks : ℚ) ≤ (6:ℚ) ∧
    (∃ r, detect_regression ⟨0,0,0,0,0⟩ ⟨100,80,0,6,6⟩ defaultThresholds = Except.ok r ∧
      r.execution_time_change = 0 ∧ r.execution_time_regression = false) ∧
    (∃ r, detect_regression ⟨0,0,0,0,0⟩ ⟨100,80,0,6,6⟩ defaultThresholds = Except.ok r ∧
      r.memory_change = 0 ∧ r.memory_regression = false) := by
  refine ⟨by norm_num [defaultThresholds], ?_, ?_⟩
  · exact (claim_C6 ⟨0,0,0,0,0⟩ ⟨100,80,0,6,6⟩ defaultThresholds).2.1
      (by norm_num [defaultThresholds]) rfl (by norm_num [defaultThresholds])
  · exact (claim_C6 ⟨0,0,0,0,0⟩ ⟨100,80,0,6,6⟩ defaultThresholds).2.2
      (by norm_num [defaultThresholds]) rfl (by norm_num [defaultThresholds])

/-! ### Claim C7 -/

/-- C7: outside the insufficient-data short-circuit, the three per-metric
flags are exactly the strict comparisons of the computed changes against
their thresholds (failure rate against `failure_rate_increase / 100`),
`has_regression` is their disjunction, and — under the intended
nonnegative thresholds — a negative (improving) change never sets a flag. -/
theorem claim_C7 (b c : NMetrics) (t : RegressionThresholds)
    (h : (t.min_benchmarks : ℚ) ≤ c.succ) :
    ∃ r, detect_regression b c t = Except.ok r ∧
      r.execution_time_change = (if b.time > 0 then (c.time - b.time) / b.time * 100 else 0) ∧
      r.memory_change = (if b.mem > 0 then (c.mem - b.mem) / b.mem * 100 else 0) ∧
      r.failure_rate_change = c.rate - b.rate ∧
      (r.execution_time_regression = true ↔ r.execution_time_change > t.execution_time_percent) ∧
      (r.memory_regression = true ↔ r.memory_change > t.memory_usage_percent) ∧
      (r.failure_rate_regression = true ↔ r.failure_rate_change > t.failure_rate_increase / 100) ∧
      r.has_regression = (r.execution_time_regression || r.memory_regression ||
        r.failure_rate_regression) ∧
      (0 ≤ t.execution_time_percent → r.execution_time_change < 0 →
        r.execution_time_regression = false) ∧
      (0 ≤ t.memory_usage_percent → r.memory_change < 0 → r.memory_regression = false) ∧
      (0 ≤ t.failure_rate_increase → r.failure_rate_change < 0 →
        r.failure_rate_regression = false) := by
  refine ⟨_, detect_regression_ok b c t h, rfl, rfl, rfl, ?_, ?_, ?_, rfl, ?_, ?_, ?_⟩
  · simp [classify]
  · simp [classify]
  · simp [classify]
  · intro h1 h2
    simp only [classify] at h2 ⊢
    simp only [decide_eq_false_iff_not, not_lt]
    linarith
  · intro h1 h2
    simp only [classify] at h2 ⊢
    simp only [decide_eq_false_iff_not, not_lt]
    linarith
  · intro h1 h2
    simp only [classify] at h2 ⊢
    simp only [decide_eq_false_iff_not, not_lt]
    linarith

/-- C7 witness: the spec's example scenario 1 — baseline time 100ms,
current time 115ms, 20 successful benchmarks, default thresholds. -/
theorem claim_C7_witness :
    (defaultThresholds.min_benchmarks : ℚ) ≤ (20:ℚ) ∧
    (∃ r, detect_regression ⟨100, 50, 0, 20, 20⟩ ⟨115, 50, 0, 20, 20⟩ defaultThresholds =
        Except.ok r ∧
      r.execution_time_change = (if (100:ℚ) > 0 then ((115:ℚ) - 100) / 100 * 100 else 0) ∧
      r.memory_change = (if (50:ℚ) > 0 then ((50:ℚ) - 50) / 50 * 100 else 0) ∧
      r.failure_rate_change = (0:ℚ) - 0 ∧
      (r.execution_time_regression = true ↔
        r.execution_time_change > defaultThresholds.execution_time_percent) ∧
      (r.memory_regression = true ↔ r.memory_change > defaultThresholds.memory_usage_percent) ∧
      (r.failure_rate_regression = true ↔
        r.failure_rate_change > defaultThresholds.failure_rate_increase / 100) ∧
      r.has_regression = (r.execution_time_regression || r.memory_regression ||
        r.failure_rate_regression) ∧
      (0 ≤ defaultThresholds.execution_time_percent → r.execution_time_change < 0 →
        r.execution_time_regression = false) ∧
      (0 ≤ defaultThresholds.memory_usage_percent → r.memory_change < 0 →
        r.memory_regression = false) ∧
      (0 ≤ defaultThresholds.failure_rate_increase → r.failure_rate_change < 0 →
        r.failure_rate_regression = false)) :=
  ⟨by norm_num [defaultThresholds],
    claim_C7 ⟨100, 50, 0, 20, 20⟩ ⟨115, 50, 0, 20, 20⟩ defaultThresholds
      (by norm_num [defaultThresholds])⟩

end PerfEngine

namespace PerfEngine

/-! ### Claim C8 -/

/-- C8: every summary `analyze_performance` produces carries the status
derived by the spec's rule (`ERROR` if no records, `FAILED` if none
succeeded, `REGRESSION` if the regression flag is set, `PARTIAL` if some
records failed, `PASS` otherwise); an all-failed shape-(a) array extracts
to the sentinel metrics (0, 0, 1, 0, N); and an all-failed record list
analyzes to status `FAILED`. -/
theorem claim_C8 :
    (∀ (results baseline_results : List BenchmarkResult) (t : PerformanceThresholds)
        (s : PerformanceSummary),
      analyze_performance results baseline_results t = Except.ok s →
      s.status = statusSpec results.length (successful_results results).length
        (failed_results results).length s.regression_detected) ∧
    (∀ xs : List Json, (∀ x ∈ xs, ∃ fs, x = Json.obj fs ∧
        pyGetD fs "success" (Json.bool false) = Json.bool false) →
      extract_metrics (Json.arr xs) =
        Except.ok ⟨Json.num 0, Json.num 0, 1, Json.num 0, Json.num (xs.length : ℚ)⟩) ∧
    (∀ (results baseline_results : List BenchmarkResult) (t : PerformanceThresholds),
      results ≠ [] → (∀ r ∈ results, r.success = false) →
      analyze_performance results baseline_results t =
        Except.ok ⟨"FAILED", 0, 0, true, results.length, results.length,
          [AnalysisNote.allFailed]⟩) := by
  refine ⟨?_, ?_, ?_⟩
  · intro results baseline_results t s h
    unfold analyze_performance at h
    by_cases hre : results.isEmpty
    · rw [if_pos hre] at h
      simp only [Except.ok.injEq] at h
      subst h
      have h0 : results.length = 0 := by simpa [List.isEmpty_iff] using hre
      simp [statusSpec, h0]
    · rw [if_neg hre] at h
      by_cases hse : (successful_results results).isEmpty
      · rw [if_pos hse] at h
        simp only [Except.ok.injEq] at h
        subst h
        have h0 : results.length ≠ 0 := by
          simpa [List.isEmpty_iff, List.length_eq_zero] using hre
        have hs0 : (successful_results results).length = 0 := by
          simpa [List.isEmpty_iff, List.length_eq_zero] using hse
        simp [statusSpec, h0, hs0]
      · rw [if_neg hse] at h
        have h0 : results.length ≠ 0 := by
          simpa [List.isEmpty_iff, List.length_eq_zero] using hre
        have hs0 : (successful_results results).length ≠ 0 := by
          simpa [List.isEmpty_iff, List.length_eq_zero] using hse
        cases hB : baseline_comparison (avg_execution_time_of results) baseline_results t with
        | error e => rw [hB] at h; simp at h
        | ok pair =>
          obtain ⟨r4, recs4⟩ := pair
          rw [hB] at h
          simp only [Except.ok.injEq] at h
          subst h
          simp [statusSpec, h0, hs0]
  · intro xs h
    apply extract_allFailed
    intro x hx
    obtain ⟨fs, h1, h2⟩ := h x hx
    exact ⟨fs, h1, by rw [h2]; rfl⟩
  · intro results baseline_results t hne hall
    have hsucc : successful_results results = [] := by
      apply List.filter_eq_nil_iff.mpr
      intro r hr
      simp [hall r hr]
    have hfail : failed_results results = results := by
      apply List.filter_eq_self.mpr
      intro r hr
      simp [hall r hr]
    unfold analyze_performance
    rw [if_neg (by simpa [List.isEmpty_iff] using hne), hsucc, hfail]
    simp

/-- C8 witness: the status rule evaluated at a two-record run (one success,
one failure) with no baseline; the sentinel extraction at a one-element
all-failed array; and the `FAILED` status at a concrete all-failed run. -/
theorem claim_C8_witness :
    (∀ s : PerformanceSummary,
      analyze_performance [⟨100, 1048576, true⟩, ⟨200, 1048576, false⟩] [] defaultPerfThresholds =
        Except.ok s →
      s.status = statusSpec ([⟨100, 1048576, true⟩, ⟨200, 1048576, false⟩] :
          List BenchmarkResult).length
        (successful_results [⟨100, 1048576, true⟩, ⟨200, 1048576, false⟩]).length
        (failed_results [⟨100, 1048576, true⟩, ⟨200, 1048576, false⟩]).length
        s.regression_detected) ∧
    extract_metrics (Json.arr [Json.obj [("success", Json.bool false)]]) =
      Except.ok ⟨Json.num 0, Json.num 0, 1, Json.num 0, Json.num ((1 : ℕ) : ℚ)⟩ ∧
    analyze_performance [⟨100, 1048576, false⟩] [] defaultPerfThresholds =
      Except.ok ⟨"FAILED", 0, 0, true, 1, 1, [AnalysisNote.allFailed]⟩ := by
  refine ⟨fun s hs => claim_C8.1 _ _ _ s hs, ?_, ?_⟩
  · exact claim_C8.2.1 [Json.obj [("success", Json.bool false)]]
      (by intro x hx; simp at hx; subst hx; exact ⟨_, rfl, rfl⟩)
  · have := claim_C8.2.2 [⟨100, 1048576, false⟩] [] defaultPerfThresholds
      (by simp) (by intro r hr; simp at hr; subst hr; rfl)
    simpa using this

/-! ### Claim C9 -/

/-- C9: outside the insufficient-data short-circuit, the recommendation
list is built in the fixed order time, memory, failure rate, with the
single no-regression message appended exactly when no flag was triggered;
each entry embeds the measured change and the threshold, and the list is a
pure function of the inputs (two invocations agree definitionally). -/
theorem claim_C9 (b c : NMetrics) (t : RegressionThresholds)
    (h : (t.min_benchmarks : ℚ) ≤ c.succ) :
    ∃ r, detect_regression b c t = Except.ok r ∧
      r.recommendations =
        (if r.execution_time_regression then
          [Recommendation.execTimeIncrease r.execution_time_change t.execution_time_percent]
          else []) ++
        (if r.memory_regression then
          [Recommendation.memoryIncrease r.memory_change t.memory_usage_percent] else []) ++
        (if r.failure_rate_regression then
          [Recommendation.failureRateIncrease r.failure_rate_change t.failure_rate_increase]
          else []) ++
        (if r.has_regression then [] else [Recommendation.noRegression]) ∧
      (Recommendation.noRegression ∈ r.recommendations ↔ r.has_regression = false) ∧
      detect_regression b c t = detect_regression b c t := by
  refine ⟨_, detect_regression_ok b c t h, ?_, ?_, rfl⟩
  · simp [classify]
  · exact classify_recs_noRegression _ _ _ t

/-- C9 witness: the recommendation ordering and no-regression rule at a
concrete comparison (baseline 100ms / rate 0.1, current 115ms / rate 0.2,
default thresholds), where time and failure-rate regressions fire. -/
theorem claim_C9_witness :
    (defaultThresholds.min_benchmarks : ℚ) ≤ (20:ℚ) ∧
    (∃ r, detect_regression ⟨100, 50, 1/10, 20, 20⟩ ⟨115, 50, 2/10, 20, 20⟩ defaultThresholds =
        Except.ok r ∧
      r.recommendations =
        (if r.execution_time_regression then
          [Recommendation.execTimeIncrease r.execution_time_change
            defaultThresholds.execution_time_percent] else []) ++
        (if r.memory_regression then
          [Recommendation.memoryIncrease r.memory_change
            defaultThresholds.memory_usage_percent] else []) ++
        (if r.failure_rate_regression then
          [Recommendation.failureRateIncrease r.failure_rate_change
            defaultThresholds.failure_rate_increase] else []) ++
        (if r.has_regression then [] else [Recommendation.noRegression]) ∧
      (Recommendation.noRegression ∈ r.recommendations ↔ r.has_regression = false) ∧
      detect_regression ⟨100, 50, 1/10, 20, 20⟩ ⟨115, 50, 2/10, 20, 20⟩ defaultThresholds =
        detect_regression ⟨100, 50, 1/10, 20, 20⟩ ⟨115, 50, 2/10, 20, 20⟩ defaultThresholds) :=
  ⟨by norm_num [defaultThresholds],
    claim_C9 ⟨100, 50, 1/10, 20, 20⟩ ⟨115, 50, 2/10, 20, 20⟩ defaultThresholds
      (by norm_num [defaultThresholds])⟩

/-! ### Claim C10 -/

/-- C10: a shape-(a) baseline list with zero successful records extracts to
the sentinel metrics tuple with zero time and memory averages, and feeding
those zero baseline averages to `detect_regression` (outside the
insufficient-data short-circuit, under nonnegative thresholds) yields time
and memory changes of 0 and never sets the time or memory flags, however
slow the current run is. -/
theorem claim_C10 :
    (∀ xs : List Json, (∀ x ∈ xs, ∃ fs, x = Json.obj fs ∧
        pyTruthy (pyGetD fs "success" (Json.bool false)) = false) →
      extract_metrics (Json.arr xs) =
        Except.ok ⟨Json.num 0, Json.num 0, 1, Json.num 0, Json.num (xs.length : ℚ)⟩) ∧
    (∀ (c : NMetrics) (t : RegressionThresholds) (n : ℚ),
      (t.min_benchmarks : ℚ) ≤ c.succ → 0 ≤ t.execution_time_percent →
      0 ≤ t.memory_usage_percent →
      ∃ r, detect_regression ⟨0, 0, 1, 0, n⟩ c t = Except.ok r ∧
        r.execution_time_change = 0 ∧ r.memory_change = 0 ∧
        r.execution_time_regression = false ∧ r.memory_regression = false) := by
  refine ⟨extract_allFailed, ?_⟩
  intro c t n hs ht hm
  refine ⟨_, detect_regression_ok ⟨0, 0, 1, 0, n⟩ c t hs, ?_, ?_, ?_, ?_⟩
  · simp [classify]
  · simp [classify]
  · simp [classify]; linarith
  · simp [classify]; linarith

/-- C10 witness: a one-element all-failed baseline array extracts to the
sentinel, and against it an extremely slow current run (999999ms,
888888MB, 6 successful) produces zero changes and no time/memory flags
under default thresholds. -/
theorem claim_C10_witness :
    extract_metrics (Json.arr [Json.obj [("success", Json.bool false)]]) =
      Except.ok ⟨Json.num 0, Json.num 0, 1, Json.num 0, Json.num ((1 : ℕ) : ℚ)⟩ ∧
    (∃ r, detect_regression ⟨0, 0, 1, 0, 1⟩ ⟨999999, 888888, 0, 6, 6⟩ defaultThresholds =
        Except.ok r ∧
      r.execution_time_change = 0 ∧ r.memory_change = 0 ∧
      r.execution_time_regression = false ∧ r.memory_regression = false) := by
  constructor
  · exact claim_C10.1 [Json.obj [("success", Json.bool false)]]
      (by intro x hx; simp at hx; subst hx; exact ⟨_, rfl, rfl⟩)
  · exact claim_C10.2 ⟨999999, 888888, 0, 6, 6⟩ defaultThresholds 1
      (by norm_num [defaultThresholds]) (by norm_num [defaultThresholds])
      (by norm_num [defaultThresholds])

end PerfEngine
